import Mathlib

/-!
Shallow embedding of the task launch-and-await core of `pkg/task/task.go`.

The embedding follows the Go source directly:
* SDK pointer fields that the code dereferences unconditionally
  (`Container.Name`, `Task.LastStatus`, `Failure.Reason`) are modelled as
  plain values; fields the code nil-checks (`Container.ExitCode`) are
  modelled as `Option`.
* The `DescribeTasks`-driven wait loop of `waitExitTasks` is modelled two
  ways sharing one loop body (`processSnapshot`): a trace model
  (`waitExitTasks` over a list of per-iteration select outcomes) and a
  discretely timed model (`waitLoopTimed`, with the 5-second interval and
  the caller deadline explicit).
-/

namespace ECS

/-- Launch type of `ecstypes.LaunchType`: EC2 or Fargate. -/
inductive LaunchType
  | ec2
  | fargate
deriving DecidableEq

/-- Public-IP assignment of `ecstypes.AssignPublicIp`. -/
inductive AssignPublicIp
  | enabled
  | disabled
deriving DecidableEq

/-- The fields of `ecstypes.Container` that matter here. The source
dereferences `Name` unconditionally, nil-checks `ExitCode`, and never reads a
container's own `LastStatus`; the latter is kept (optional, as in the SDK)
so that container-level lifecycle claims can be stated. -/
structure Container where
  name : String
  lastStatus : Option String
  exitCode : Option Int
deriving DecidableEq

/-- The fields of `ecstypes.Task` that the wait loop reads: `LastStatus`
(dereferenced unconditionally) and `Containers`. -/
structure ECSTask where
  lastStatus : String
  containers : List Container
deriving DecidableEq

/-- The fields of the `Task` controller struct consumed by request building
and the wait loop (clients, profile, region and the timestamp format play no
role in the modelled control flow). -/
structure Task where
  cluster : String
  container : String
  taskDefinitionName : String
  command : List String
  timeout : Nat
  launchType : LaunchType
  subnets : List String
  securityGroups : List String
  platformVersion : String
  assignPublicIP : AssignPublicIp
  taskSizeCpu : String
  taskSizeMemory : String
deriving DecidableEq

/-- `ecstypes.ContainerOverride` as built in `RunTask`. -/
structure ContainerOverride where
  command : List String
  name : String
deriving DecidableEq

/-- `ecstypes.TaskOverride` as built in `RunTask`: `Cpu`/`Memory` are nil
unless both sizes are set. -/
structure TaskOverride where
  containerOverrides : List ContainerOverride
  cpu : Option String
  memory : Option String
deriving DecidableEq

/-- `ecstypes.AwsVpcConfiguration` as built in `RunTask`. -/
structure AwsVpcConfiguration where
  assignPublicIp : AssignPublicIp
  subnets : List String
  securityGroups : List String
deriving DecidableEq

/-- `ecstypes.NetworkConfiguration` as built in `RunTask`. -/
structure NetworkConfiguration where
  awsvpcConfiguration : AwsVpcConfiguration
deriving DecidableEq

/-- `ecs.RunTaskInput` as built in `RunTask`; optional fields are nil
pointers in Go when omitted. -/
structure RunTaskInput where
  cluster : String
  taskDefinition : Option String
  overrides : TaskOverride
  networkConfiguration : Option NetworkConfiguration
  launchType : LaunchType
  platformVersion : Option String
deriving DecidableEq

/-- Lines 185-199 of `task.go`: the task override always carries the single
container override for the target container, and carries `Cpu`/`Memory`
exactly when both `taskSizeCpu` and `taskSizeMemory` are non-empty. -/
def buildTaskOverride (t : Task) : TaskOverride :=
  let base : TaskOverride :=
    { containerOverrides := [{ command := t.command, name := t.container }]
      cpu := none
      memory := none }
  if 0 < t.taskSizeCpu.length ∧ 0 < t.taskSizeMemory.length then
    { base with cpu := some t.taskSizeCpu, memory := some t.taskSizeMemory }
  else base

/-- Lines 201-236 of `task.go`: build the `RunTaskInput`. With subnets, a
network configuration is attached and the platform version is attached only
when non-empty; without subnets, neither is attached. -/
def buildRunTaskInput (t : Task) (taskDefinitionArn : Option String) : RunTaskInput :=
  let override := buildTaskOverride t
  if 0 < t.subnets.length then
    let vpcConfiguration : AwsVpcConfiguration :=
      { assignPublicIp := t.assignPublicIP
        subnets := t.subnets
        securityGroups := t.securityGroups }
    let network : NetworkConfiguration := { awsvpcConfiguration := vpcConfiguration }
    if 0 < t.platformVersion.length then
      { cluster := t.cluster
        taskDefinition := taskDefinitionArn
        overrides := override
        networkConfiguration := some network
        launchType := t.launchType
        platformVersion := some t.platformVersion }
    else
      { cluster := t.cluster
        taskDefinition := taskDefinitionArn
        overrides := override
        networkConfiguration := some network
        launchType := t.launchType
        platformVersion := none }
  else
    { cluster := t.cluster
      taskDefinition := taskDefinitionArn
      overrides := override
      networkConfiguration := none
      launchType := t.launchType
      platformVersion := none }

/-- `ecstypes.Failure`: the source dereferences `Reason` unconditionally, so
it is modelled as present. -/
structure Failure where
  reason : String
deriving DecidableEq

/-- `ecs.RunTaskOutput` as consumed by `RunTask`. -/
structure RunTaskOutput where
  tasks : List ECSTask
  failures : List Failure
deriving DecidableEq

/-- The submission errors `RunTask` can produce from a response: the first
failure's reason verbatim, or the unexpected task count. -/
inductive RunTaskError
  | failureReason (r : String)
  | unexpectedCount (n : Nat)
deriving DecidableEq

/-- Lines 242-251 of `task.go`: failures are checked first and surface the
first failure's reason; then exactly one task is required and returned. -/
def handleRunTaskOutput (resp : RunTaskOutput) : Except RunTaskError ECSTask :=
  match resp.failures with
  | f :: _ => .error (.failureReason f.reason)
  | [] =>
    match resp.tasks with
    | [task] => .ok task
    | tasks => .error (.unexpectedCount tasks.length)

/-- Outcome of the argument checks at the top of `NewTask`: either a
validation error naming the missing field, or control reaches the
AWS-session/client construction (the first step that can touch the network,
line 129 of `task.go`). -/
inductive NewTaskOutcome
  | validationError (msg : String)
  | proceed
deriving DecidableEq

/-- Lines 116-128 of `task.go`: the four required-field checks, in source
order, before any session or client is created. -/
def newTaskValidate (cluster container taskDefinitionName command : String) : NewTaskOutcome :=
  if cluster = "" then .validationError "Cluster name is required"
  else if container = "" then .validationError "Container name is required"
  else if taskDefinitionName = "" then .validationError "Task definition is required"
  else if command = "" then .validationError "Command is required"
  else .proceed

/-- Lines 304-309 of `task.go`: a task counts as stopped when its own
`LastStatus` equals the string STOPPED. Container states are not consulted. -/
def checkTaskStopped (task : ECSTask) : Bool :=
  if task.lastStatus ≠ "STOPPED" then false else true

/-- Lines 313-317 of `task.go`: scan the containers left to right, keeping
the latest one whose name equals the target name, so the last match wins. -/
def findTargetContainer (cname : String) (containers : List Container) : Option Container :=
  containers.foldl (fun acc c => if c.name = cname then some c else acc) none

/-- Lines 311-329 of `task.go`: resolve the target container and read its
exit code, mirroring the Go triple (code, result, err). -/
def checkTaskSucceeded (cname : String) (task : ECSTask) : Int × Bool × Option String :=
  match findTargetContainer cname task.containers with
  | none => (1, false, some "can not find target container")
  | some c =>
    match c.exitCode with
    | none => (1, false, some "can not read exit code")
    | some code => if code ≠ 0 then (code, false, none) else (0, true, none)

/-- Outcome of one processed snapshot: keep polling, finish successfully, or
finish with a non-zero exit code. -/
inductive TickOutcome
  | next
  | done
  | failed (code : Int)
deriving DecidableEq

/-- Lines 291-300 of `task.go`: check every task of the snapshot; an error
from `checkTaskSucceeded` restarts the loop, a false result returns the exit
code, and the loop returns nil once every task passed. -/
def checkAllSucceeded (cname : String) : List ECSTask → TickOutcome
  | [] => .done
  | task :: rest =>
    match checkTaskSucceeded cname task with
    | (_, _, some _) => .next
    | (code, false, none) => .failed code
    | (_, true, none) => checkAllSucceeded cname rest

/-- Lines 285-300 of `task.go`: one snapshot is conclusive only if every
task reports STOPPED; otherwise the loop is re-entered. -/
def processSnapshot (cname : String) (tasks : List ECSTask) : TickOutcome :=
  if tasks.all checkTaskStopped then checkAllSucceeded cname tasks else .next

/-- The two ways `ctx.Err()` ends the wait: deadline elapsed or cancelled. -/
inductive CtxErr
  | deadlineExceeded
  | canceled
deriving DecidableEq

/-- One iteration of the `select` plus fetch in `waitExitTasks`: either the
context fires first, or the 5-second timer fires and `DescribeTasks`
produces an error or a snapshot. -/
inductive PollEvent
  | ctxDone (e : CtxErr)
  | fetched (r : Except String (List ECSTask))

/-- Result of `waitExitTasks`: nil, the context error, the `DescribeTasks`
error, the non-zero exit-code error, or still looping after the given
iterations. -/
inductive WaitResult
  | success
  | ctxError (e : CtxErr)
  | pollError (msg : String)
  | exitCodeError (code : Int)
  | pending
deriving DecidableEq

/-- Lines 267-302 of `task.go` as a trace function: each list element is the
outcome of one iteration's select/fetch; the loop body is `processSnapshot`.
An exhausted trace means the loop is still polling. -/
def waitExitTasks (cname : String) : List PollEvent → WaitResult
  | [] => .pending
  | .ctxDone e :: _ => .ctxError e
  | .fetched (.error msg) :: _ => .pollError msg
  | .fetched (.ok tasks) :: rest =>
    match processSnapshot cname tasks with
    | .next => waitExitTasks cname rest
    | .done => .success
    | .failed code => .exitCodeError code

/-- Result of `WaitTask` after its error translation: nil, the literal
"process timeout" error, the untranslated cancellation error, a
`DescribeTasks` error, the exit-code error, or still polling. -/
inductive WaitTaskResult
  | success
  | processTimeout
  | canceled
  | pollError (msg : String)
  | exitCodeError (code : Int)
  | pending
deriving DecidableEq

/-- Lines 255-265 of `task.go`: only `context.DeadlineExceeded` is rewritten
to the "process timeout" error; every other error, including
`context.Canceled`, is returned unchanged. -/
def mapWaitResult : WaitResult → WaitTaskResult
  | .ctxError .deadlineExceeded => .processTimeout
  | .ctxError .canceled => .canceled
  | .success => .success
  | .pollError msg => .pollError msg
  | .exitCodeError code => .exitCodeError code
  | .pending => .pending

/-- `WaitTask` over a trace: run `waitExitTasks` and translate its error. -/
def WaitTask (cname : String) (events : List PollEvent) : WaitTaskResult :=
  mapWaitResult (waitExitTasks cname events)

/-- Which arm of the select at lines 270-274 fires. -/
inductive SelectBranch
  | ctxDone
  | timer
deriving DecidableEq

/-- The select at the top of each iteration, with time in seconds: the timer
arm would fire at `elapsed + 5`, so a deadline at or before that instant
fires first. `none` models a context without deadline (timeout 0). -/
def firstSelect (deadline : Option Nat) (elapsed : Nat) : SelectBranch :=
  match deadline with
  | some d => if d ≤ elapsed + 5 then .ctxDone else .timer
  | none => .timer

/-- Timed model of lines 267-302 of `task.go`: every iteration first sits in
the select for the full 5-second interval (or until the deadline), and only
then calls `DescribeTasks`, here an oracle from the current time to the call
result. Returns the loop result and how many `DescribeTasks` calls were
issued; fuel bounds the number of iterations simulated. -/
def waitLoopTimed (cname : String) (deadline : Option Nat)
    (fetch : Nat → Except String (List ECSTask)) : Nat → Nat → WaitResult × Nat
  | 0, _ => (.pending, 0)
  | fuel + 1, elapsed =>
    match firstSelect deadline elapsed with
    | .ctxDone => (.ctxError .deadlineExceeded, 0)
    | .timer =>
      match fetch (elapsed + 5) with
      | .error msg => (.pollError msg, 1)
      | .ok tasks =>
        match processSnapshot cname tasks with
        | .next =>
          let r := waitLoopTimed cname deadline fetch fuel (elapsed + 5)
          (r.1, r.2 + 1)
        | .done => (.success, 1)
        | .failed code => (.exitCodeError code, 1)

/-- `WaitTask` over the timed model, starting at time zero. -/
def WaitTaskTimed (cname : String) (deadline : Option Nat)
    (fetch : Nat → Except String (List ECSTask)) (fuel : Nat) : WaitTaskResult × Nat :=
  let r := waitLoopTimed cname deadline fetch fuel 0
  (mapWaitResult r.1, r.2)

/-- A string has positive length exactly when it is not the empty string;
bridges the Go len(s) > 0 tests and emptiness. -/
theorem string_length_pos_iff (s : String) : 0 < s.length ↔ s ≠ "" := by
  cases s with
  | mk data =>
    cases data with
    | nil => simp
    | cons c cs =>
      constructor
      · intro _ h
        exact absurd (congrArg String.data h) (by simp)
      · intro _
        simp [String.length]

/-- C1: a submission response with exactly one task and no failure entries
yields that task with no error; any failure entry, or a task count other
than one, yields a submission error; and the first failure's reason appears
verbatim in the error. -/
theorem runTask_response_contract (resp : RunTaskOutput) :
    (∀ task, resp.failures = [] → resp.tasks = [task] →
        handleRunTaskOutput resp = .ok task) ∧
    (resp.failures ≠ [] ∨ resp.tasks.length ≠ 1 →
        ∃ e, handleRunTaskOutput resp = .error e) ∧
    (∀ f fs, resp.failures = f :: fs →
        handleRunTaskOutput resp = .error (.failureReason f.reason)) := by
  obtain ⟨tasks, failures⟩ := resp
  refine ⟨?_, ?_, ?_⟩
  · intro task hf ht
    subst hf; subst ht
    rfl
  · intro h
    cases failures with
    | nil =>
      cases h with
      | inl h => exact absurd rfl h
      | inr h =>
        cases tasks with
        | nil => exact ⟨.unexpectedCount 0, rfl⟩
        | cons t ts =>
          cases ts with
          | nil => exact absurd rfl h
          | cons t2 ts2 => exact ⟨.unexpectedCount (t :: t2 :: ts2).length, rfl⟩
    | cons f fs => exact ⟨.failureReason f.reason, rfl⟩
  · intro f fs hf
    subst hf
    rfl

/-- Witness for C1: a one-task no-failure response is accepted, a response
with a failure entry surfaces its reason. -/
theorem runTask_response_contract_witness :
    handleRunTaskOutput ⟨[⟨"RUNNING", []⟩], []⟩ = .ok ⟨"RUNNING", []⟩ ∧
    handleRunTaskOutput ⟨[], [⟨"RESOURCE LIMIT"⟩]⟩ =
      .error (.failureReason "RESOURCE LIMIT") :=
  ⟨(runTask_response_contract ⟨[⟨"RUNNING", []⟩], []⟩).1 ⟨"RUNNING", []⟩ rfl rfl,
   (runTask_response_contract ⟨[], [⟨"RESOURCE LIMIT"⟩]⟩).2.2 ⟨"RESOURCE LIMIT"⟩ [] rfl⟩

/-- C6: the launch request carries a CPU/memory override exactly when both
size strings are non-empty; when at most one is set, the override carries
neither value. -/
theorem resource_override_iff_both (t : Task) :
    (t.taskSizeCpu ≠ "" → t.taskSizeMemory ≠ "" →
        (buildTaskOverride t).cpu = some t.taskSizeCpu ∧
        (buildTaskOverride t).memory = some t.taskSizeMemory) ∧
    (t.taskSizeCpu = "" ∨ t.taskSizeMemory = "" →
        (buildTaskOverride t).cpu = none ∧ (buildTaskOverride t).memory = none) := by
  constructor
  · intro hc hm
    have h : 0 < t.taskSizeCpu.length ∧ 0 < t.taskSizeMemory.length :=
      ⟨(string_length_pos_iff _).2 hc, (string_length_pos_iff _).2 hm⟩
    simp [buildTaskOverride, h]
  · intro h
    have hne : ¬ (0 < t.taskSizeCpu.length ∧ 0 < t.taskSizeMemory.length) := by
      intro hcontra
      cases h with
      | inl h => rw [h] at hcontra; simp at hcontra
      | inr h => rw [h] at hcontra; simp at hcontra
    simp [buildTaskOverride, hne]

/-- Witness for C6: CPU set but memory empty produces no override values. -/
theorem resource_override_iff_both_witness :
    (buildTaskOverride
        ⟨"c", "app", "td", ["run"], 0, .ec2, [], [], "", .disabled, "256", ""⟩).cpu = none ∧
    (buildTaskOverride
        ⟨"c", "app", "td", ["run"], 0, .ec2, [], [], "", .disabled, "256", ""⟩).memory = none :=
  (resource_override_iff_both
      ⟨"c", "app", "td", ["run"], 0, .ec2, [], [], "", .disabled, "256", ""⟩).2
    (Or.inr rfl)

/-- C7: with no subnets the request carries neither a network configuration
nor a platform version, for every launch mode; with subnets it carries the
awsvpc configuration built from the task's fields, and the platform version
exactly when that string is non-empty. -/
theorem network_configuration_rules (t : Task) (arn : Option String) :
    (t.subnets = [] →
        (buildRunTaskInput t arn).networkConfiguration = none ∧
        (buildRunTaskInput t arn).platformVersion = none) ∧
    (t.subnets ≠ [] →
        (buildRunTaskInput t arn).networkConfiguration =
          some ⟨⟨t.assignPublicIP, t.subnets, t.securityGroups⟩⟩ ∧
        (t.platformVersion ≠ "" →
            (buildRunTaskInput t arn).platformVersion = some t.platformVersion) ∧
        (t.platformVersion = "" →
            (buildRunTaskInput t arn).platformVersion = none)) := by
  constructor
  · intro h
    have hlen : ¬ 0 < t.subnets.length := by simp [h]
    simp [buildRunTaskInput, hlen]
  · intro h
    have hlen : 0 < t.subnets.length := List.length_pos.2 h
    refine ⟨?_, ?_, ?_⟩
    · by_cases hp : 0 < t.platformVersion.length
      · simp [buildRunTaskInput, hlen, hp]
      · simp [buildRunTaskInput, hlen, hp]
    · intro hp
      have hplen : 0 < t.platformVersion.length := (string_length_pos_iff _).2 hp
      simp [buildRunTaskInput, hlen, hplen]
    · intro hp
      have hplen : ¬ 0 < t.platformVersion.length := by simp [hp]
      simp [buildRunTaskInput, hlen, hplen]

/-- Witness for C7: a Fargate task with subnets and a platform version gets
both attached; an EC2 task without subnets gets neither. -/
theorem network_configuration_rules_witness :
    (buildRunTaskInput
        ⟨"c", "app", "td", ["run"], 0, .fargate, ["subnet-1"], ["sg-1"], "1.4.0",
          .enabled, "", ""⟩ (some "arn")).networkConfiguration =
      some ⟨⟨.enabled, ["subnet-1"], ["sg-1"]⟩⟩ ∧
    (buildRunTaskInput
        ⟨"c", "app", "td", ["run"], 0, .fargate, ["subnet-1"], ["sg-1"], "1.4.0",
          .enabled, "", ""⟩ (some "arn")).platformVersion = some "1.4.0" := by
  have h := (network_configuration_rules
      ⟨"c", "app", "td", ["run"], 0, .fargate, ["subnet-1"], ["sg-1"], "1.4.0",
        .enabled, "", ""⟩ (some "arn")).2 (by simp)
  exact ⟨h.1, h.2.1 (by decide)⟩

/-- C8: an empty cluster, container, task-definition reference or command
makes construction stop with the validation error naming the first missing
field in check order, never reaching the session/client step. -/
theorem newTask_validation (cluster container taskDefinitionName command : String)
    (h : cluster = "" ∨ container = "" ∨ taskDefinitionName = "" ∨ command = "") :
    newTaskValidate cluster container taskDefinitionName command ≠ .proceed ∧
    (∃ msg, newTaskValidate cluster container taskDefinitionName command =
        .validationError msg) ∧
    (cluster = "" →
        newTaskValidate cluster container taskDefinitionName command =
          .validationError "Cluster name is required") ∧
    (cluster ≠ "" → container = "" →
        newTaskValidate cluster container taskDefinitionName command =
          .validationError "Container name is required") ∧
    (cluster ≠ "" → container ≠ "" → taskDefinitionName = "" →
        newTaskValidate cluster container taskDefinitionName command =
          .validationError "Task definition is required") ∧
    (cluster ≠ "" → container ≠ "" → taskDefinitionName ≠ "" → command = "" →
        newTaskValidate cluster container taskDefinitionName command =
          .validationError "Command is required") := by
  by_cases hc : cluster = ""
  · simp [newTaskValidate, hc]
  · by_cases hco : container = ""
    · simp [newTaskValidate, hc, hco]
    · by_cases htd : taskDefinitionName = ""
      · simp [newTaskValidate, hc, hco, htd]
      · have hcmd : command = "" := by
          rcases h with h | h | h | h
          · exact absurd h hc
          · exact absurd h hco
          · exact absurd h htd
          · exact h
        simp [newTaskValidate, hc, hco, htd, hcmd]

/-- Witness for C8: an empty container name is rejected with the container
message. -/
theorem newTask_validation_witness :
    newTaskValidate "cluster" "" "td" "echo hi" =
      .validationError "Container name is required" := by
  have h := newTask_validation "cluster" "" "td" "echo hi" (Or.inr (Or.inl rfl))
  exact h.2.2.2.1 (by decide) rfl

/-- Counterexample to C2: the task reports STOPPED while its only container
still reports RUNNING; the loop nevertheless proceeds to exit-code
evaluation and resolves successfully instead of re-polling, so the gate is
not "every container stopped". -/
theorem polling_gate_counterexample :
    (([⟨"STOPPED", [⟨"main", some "RUNNING", some 0⟩]⟩] : List ECSTask).all
        (fun task => task.containers.all (fun c => c.lastStatus == some "STOPPED"))
      = false) ∧
    waitExitTasks "main"
        [.fetched (.ok [⟨"STOPPED", [⟨"main", some "RUNNING", some 0⟩]⟩])] = .success ∧
    decide (waitExitTasks "main"
        [.fetched (.ok [⟨"STOPPED", [⟨"main", some "RUNNING", some 0⟩]⟩])] =
      WaitResult.pending) = false := by
  decide

/-- C2 (amended): the loop proceeds to exit-code evaluation exactly when
every task of the snapshot reports last status STOPPED (container lifecycle
states are not consulted); when some task is not stopped, the iteration
re-polls, producing neither a result nor an error. -/
theorem polling_gate_is_task_level (cname : String) (tasks : List ECSTask)
    (rest : List PollEvent) :
    (tasks.all checkTaskStopped = false →
        processSnapshot cname tasks = .next ∧
        waitExitTasks cname (.fetched (.ok tasks) :: rest) = waitExitTasks cname rest) ∧
    (tasks.all checkTaskStopped = true →
        processSnapshot cname tasks = checkAllSucceeded cname tasks) := by
  constructor
  · intro h
    have hsnap : processSnapshot cname tasks = .next := by
      simp [processSnapshot, h]
    exact ⟨hsnap, by simp [waitExitTasks, hsnap]⟩
  · intro h
    simp [processSnapshot, h]

/-- Witness for C2 (amended): a RUNNING task makes the iteration re-poll,
and the follow-up stopped snapshot is what decides the wait. -/
theorem polling_gate_is_task_level_witness :
    processSnapshot "main" [⟨"RUNNING", [⟨"main", some "RUNNING", none⟩]⟩] = .next ∧
    waitExitTasks "main"
        [.fetched (.ok [⟨"RUNNING", [⟨"main", some "RUNNING", none⟩]⟩]),
          .fetched (.ok [⟨"STOPPED", [⟨"main", some "STOPPED", some 0⟩]⟩])] =
      waitExitTasks "main"
        [.fetched (.ok [⟨"STOPPED", [⟨"main", some "STOPPED", some 0⟩]⟩])] :=
  (polling_gate_is_task_level "main" [⟨"RUNNING", [⟨"main", some "RUNNING", none⟩]⟩]
      [.fetched (.ok [⟨"STOPPED", [⟨"main", some "STOPPED", some 0⟩]⟩])]).1 (by decide)

/-- Counterexample to C3: every container of the snapshot reports STOPPED
and the target container's exit code is observable (zero), yet the wait
does not resolve successfully; it keeps polling because the task itself
still reports RUNNING. -/
theorem stopped_containers_counterexample :
    (([⟨"RUNNING", [⟨"main", some "STOPPED", some 0⟩]⟩] : List ECSTask).all
        (fun task => task.containers.all (fun c => c.lastStatus == some "STOPPED"))
      = true) ∧
    findTargetContainer "main" [⟨"main", some "STOPPED", some 0⟩] =
      some ⟨"main", some "STOPPED", some 0⟩ ∧
    waitExitTasks "main"
        [.fetched (.ok [⟨"RUNNING", [⟨"main", some "STOPPED", some 0⟩]⟩])] = .pending ∧
    decide (waitExitTasks "main"
        [.fetched (.ok [⟨"RUNNING", [⟨"main", some "STOPPED", some 0⟩]⟩])] =
      WaitResult.success) = false := by
  decide

/-- C3 (amended): once the fetched task reports STOPPED and the container
scan yields a target container with an observed exit code, exit code zero
resolves the wait successfully and a non-zero code resolves it with that
code preserved in the exit-code error. -/
theorem exit_code_determines_result (cname : String) (task : ECSTask) (c : Container)
    (code : Int) (rest : List PollEvent)
    (hstop : checkTaskStopped task = true)
    (hfind : findTargetContainer cname task.containers = some c)
    (hcode : c.exitCode = some code) :
    waitExitTasks cname (.fetched (.ok [task]) :: rest) =
      if code = 0 then .success else .exitCodeError code := by
  have hcheck : checkTaskSucceeded cname task =
      if code ≠ 0 then (code, false, none) else (0, true, none) := by
    unfold checkTaskSucceeded
    rw [hfind]
    simp [hcode]
  have hall : ([task].all checkTaskStopped) = true := by simp [hstop]
  by_cases hz : code = 0
  · have hsucc : checkAllSucceeded cname [task] = .done := by
      unfold checkAllSucceeded
      rw [hcheck]
      simp [hz, checkAllSucceeded]
    have hsnap : processSnapshot cname [task] = .done := by
      simp [processSnapshot, hall, hsucc]
    simp [waitExitTasks, hsnap, hz]
  · have hsucc : checkAllSucceeded cname [task] = .failed code := by
      unfold checkAllSucceeded
      rw [hcheck]
      simp [hz]
    have hsnap : processSnapshot cname [task] = .failed code := by
      simp [processSnapshot, hall, hsucc]
    simp [waitExitTasks, hsnap, hz]

/-- Witness for C3 (amended): a stopped task whose target container exited
with code 7 resolves to the exit-code error carrying 7. -/
theorem exit_code_determines_result_witness :
    waitExitTasks "main"
        [.fetched (.ok [⟨"STOPPED", [⟨"main", some "STOPPED", some 7⟩]⟩])] =
      if (7 : Int) = 0 then .success else .exitCodeError 7 :=
  exit_code_determines_result "main" ⟨"STOPPED", [⟨"main", some "STOPPED", some 7⟩]⟩
    ⟨"main", some "STOPPED", some 7⟩ 7 [] (by decide) (by decide) rfl

/-- Counterexample to C4: a container that is not yet stopped does not make
the loop continue polling; because its task already reports STOPPED, the
iteration terminates with the exit-code error 3. -/
theorem not_stopped_continue_counterexample :
    ((⟨"app", some "PENDING", some 3⟩ : Container).lastStatus = some "PENDING") ∧
    decide ((⟨"app", some "PENDING", some 3⟩ : Container).lastStatus = some "STOPPED")
      = false ∧
    waitExitTasks "app"
        [.fetched (.ok [⟨"STOPPED", [⟨"app", some "PENDING", some 3⟩]⟩])] =
      .exitCodeError 3 := by
  decide

/-- C4 (amended): a failed describe call aborts the wait at once with that
error, independently of later iterations; a snapshot with a task not yet
STOPPED, or with the task STOPPED but the target container missing or its
exit code unobserved, makes the loop re-poll instead of ending in an
error. -/
theorem poll_error_aborts_inconclusive_repolls (cname msg : String)
    (tasks : List ECSTask) (task : ECSTask) (rest : List PollEvent) :
    waitExitTasks cname (.fetched (.error msg) :: rest) = .pollError msg ∧
    (tasks.all checkTaskStopped = false →
        waitExitTasks cname (.fetched (.ok tasks) :: rest) = waitExitTasks cname rest) ∧
    (checkTaskStopped task = true →
        (findTargetContainer cname task.containers = none ∨
          ∃ c, findTargetContainer cname task.containers = some c ∧ c.exitCode = none) →
        waitExitTasks cname (.fetched (.ok [task]) :: rest) = waitExitTasks cname rest) := by
  refine ⟨rfl, ?_, ?_⟩
  · intro h
    have hsnap : processSnapshot cname tasks = .next := by
      simp [processSnapshot, h]
    simp [waitExitTasks, hsnap]
  · intro hstop hinc
    have herr : ∃ m, checkTaskSucceeded cname task = (1, false, some m) := by
      unfold checkTaskSucceeded
      rcases hinc with h | ⟨c, hc, hcode⟩
      · rw [h]
        exact ⟨_, rfl⟩
      · rw [hc]
        simp only [hcode]
        exact ⟨_, rfl⟩
    obtain ⟨m, hm⟩ := herr
    have hall : ([task].all checkTaskStopped) = true := by simp [hstop]
    have hsucc : checkAllSucceeded cname [task] = .next := by
      unfold checkAllSucceeded
      rw [hm]
    have hsnap : processSnapshot cname [task] = .next := by
      simp [processSnapshot, hall, hsucc]
    simp [waitExitTasks, hsnap]

/-- Witness for C4 (amended): a describe error aborts with that error; a
RUNNING task re-polls; a STOPPED task with an unobserved exit code
re-polls. -/
theorem poll_error_aborts_inconclusive_repolls_witness :
    waitExitTasks "app" [.fetched (.error "describe failed")] =
      .pollError "describe failed" ∧
    waitExitTasks "app" [.fetched (.ok [⟨"RUNNING", []⟩])] = waitExitTasks "app" [] ∧
    waitExitTasks "app"
        [.fetched (.ok [⟨"STOPPED", [⟨"app", some "STOPPED", none⟩]⟩])] =
      waitExitTasks "app" [] := by
  have h := poll_error_aborts_inconclusive_repolls "app" "describe failed"
    [⟨"RUNNING", []⟩] ⟨"STOPPED", [⟨"app", some "STOPPED", none⟩]⟩ []
  exact ⟨h.1, h.2.1 (by decide),
    h.2.2 (by decide) (Or.inr ⟨⟨"app", some "STOPPED", none⟩, by decide, rfl⟩)⟩

/-- Counterexample to C5: cancellation does not produce the process-timeout
result; the cancellation error is passed through unchanged. -/
theorem cancel_not_timeout_counterexample :
    WaitTask "main" [.ctxDone .canceled] = .canceled ∧
    decide (WaitTask "main" [.ctxDone .canceled] = WaitTaskResult.processTimeout)
      = false := by
  decide

/-- C5 (amended): a deadline firing during the wait yields the dedicated
process-timeout result, which is distinct from every exit-code failure and
from every poll error; cancellation instead propagates the cancellation
error untranslated. -/
theorem deadline_yields_timeout (cname : String) (events : List PollEvent) :
    WaitTask cname (.ctxDone .deadlineExceeded :: events) = .processTimeout ∧
    WaitTask cname (.ctxDone .canceled :: events) = .canceled ∧
    (∀ code : Int,
      decide (WaitTaskResult.processTimeout = .exitCodeError code) = false) ∧
    (∀ msg : String,
      decide (WaitTaskResult.processTimeout = .pollError msg) = false) ∧
    decide (WaitTaskResult.canceled = WaitTaskResult.processTimeout) = false := by
  refine ⟨rfl, rfl, fun code => rfl, fun msg => rfl, rfl⟩

/-- Folding the last-match scan over containers none of which match leaves
the accumulator unchanged. -/
theorem foldl_last_match_no_match (cname : String) (acc : Option Container)
    (post : List Container) (h : ∀ x ∈ post, x.name ≠ cname) :
    List.foldl (fun a c => if c.name = cname then some c else a) acc post = acc := by
  induction post generalizing acc with
  | nil => rfl
  | cons x xs ih =>
    have hx : ¬ x.name = cname := h x (List.mem_cons_self x xs)
    rw [List.foldl_cons, if_neg hx]
    exact ih acc fun y hy => h y (List.mem_cons_of_mem x hy)

/-- C9: when several containers carry the target name the scan keeps the
last match in sequence order, and the success check is decided by that last
container's exit code. -/
theorem last_match_wins (cname status : String) (pre post : List Container)
    (c : Container) (code : Int)
    (hc : c.name = cname) (hpost : ∀ x ∈ post, x.name ≠ cname)
    (hcode : c.exitCode = some code) :
    findTargetContainer cname (pre ++ c :: post) = some c ∧
    checkTaskSucceeded cname ⟨status, pre ++ c :: post⟩ =
      if code = 0 then (0, true, none) else (code, false, none) := by
  have hfind : findTargetContainer cname (pre ++ c :: post) = some c := by
    unfold findTargetContainer
    rw [List.foldl_append, List.foldl_cons, if_pos hc]
    exact foldl_last_match_no_match cname _ post hpost
  refine ⟨hfind, ?_⟩
  show (match findTargetContainer cname (pre ++ c :: post) with
    | none => ((1 : Int), false, some "can not find target container")
    | some c =>
      match c.exitCode with
      | none => ((1 : Int), false, some "can not read exit code")
      | some code =>
        if code ≠ 0 then (code, false, none) else ((0 : Int), true, none)) =
    if code = 0 then ((0 : Int), true, none) else (code, false, none)
  rw [hfind]
  simp only [hcode]
  by_cases hz : code = 0
  · simp [hz]
  · simp [hz]

/-- Witness for C9: with two containers both named main, exit codes 3 then
0 in order, the scan returns the second and the check succeeds. -/
theorem last_match_wins_witness :
    findTargetContainer "main"
        ([⟨"main", none, some 3⟩] ++ ⟨"main", none, some 0⟩ :: []) =
      some ⟨"main", none, some 0⟩ ∧
    checkTaskSucceeded "main"
        ⟨"STOPPED", [⟨"main", none, some 3⟩] ++ ⟨"main", none, some 0⟩ :: []⟩ =
      if (0 : Int) = 0 then ((0 : Int), true, (none : Option String))
      else (0, false, none) :=
  last_match_wins "main" "STOPPED" [⟨"main", none, some 3⟩] []
    ⟨"main", none, some 0⟩ 0 rfl (by simp) rfl

/-- C10: each iteration sits in the select for the full five-second
interval before any describe call, so a deadline at or before the first
interval resolves to the process-timeout result with zero describe calls
issued, whatever the snapshots would have reported. -/
theorem first_interval_timeout (cname : String) (d : Nat)
    (fetch : Nat → Except String (List ECSTask)) (fuel : Nat)
    (hd : d ≤ 5) (hfuel : 0 < fuel) :
    WaitTaskTimed cname (some d) fetch fuel = (.processTimeout, 0) := by
  cases fuel with
  | zero => exact absurd hfuel (by simp)
  | succ n =>
    have hsel : firstSelect (some d) 0 = .ctxDone := by
      show (if d ≤ 0 + 5 then SelectBranch.ctxDone else SelectBranch.timer) = .ctxDone
      rw [if_pos (by omega)]
    simp [WaitTaskTimed, waitLoopTimed, hsel, mapWaitResult]

/-- Witness for C10: a three-second deadline times out before the first
five-second tick with zero describe calls, although the snapshot oracle
would immediately have reported a stopped task with exit code zero. -/
theorem first_interval_timeout_witness :
    WaitTaskTimed "main" (some 3)
        (fun _ => .ok [⟨"STOPPED", [⟨"main", some "STOPPED", some 0⟩]⟩]) 1 =
      (.processTimeout, 0) :=
  first_interval_timeout "main" 3
    (fun _ => .ok [⟨"STOPPED", [⟨"main", some "STOPPED", some 0⟩]⟩]) 1
    (by decide) (by decide)

end ECS
